import Mathlib

/-!
Verification of the llmfit core: the hardware capability detector
(`src/hardware.rs`) and the fit engine described in the design document.
External effects (process spawning, filesystem reads, OS memory queries)
are modelled as an explicit environment value; the Rust control flow is
translated function-by-function. Floating-point gigabyte quantities are
modelled as exact rationals.
-/

set_option autoImplicit false

/-- The observable outcome of running one external command: the
success flag of its exit status and its standard output decoded as
UTF-8 (`none` models output that is not valid UTF-8).  A command whose
executable cannot be spawned at all is modelled by `Option CmdOut =
none` at the use site. -/
structure CmdOut where
  success : Bool
  stdout : Option String
deriving DecidableEq, Repr

/-- One entry of `/sys/class/drm`: the contents of `device/vendor` and
of `device/mem_info_vram_total` (`none` models a failed file read). -/
structure DrmCard where
  vendor : Option String
  mem_info_vram_total : Option String
deriving DecidableEq, Repr

/-- The probe environment seen by `SystemSpecs::detect_gpu`: the four
external commands it may spawn and the drm directory it may scan
(`drm_cards = none` models `read_dir` failing). -/
structure ProbeEnv where
  nvidia_smi : Option CmdOut
  rocm_smi : Option CmdOut
  drm_cards : Option (List DrmCard)
  lspci : Option CmdOut
  system_profiler : Option CmdOut
deriving DecidableEq, Repr

/-- The OS-level facts read by `SystemSpecs::detect`: total and
available memory in bytes, the per-CPU brand strings, and the probe
environment for GPU detection. -/
structure SysEnv where
  total_memory : Nat
  available_memory : Nat
  cpus : List String
  gpu : ProbeEnv
deriving DecidableEq, Repr

/-- ASCII lowercase of every character, modelling the effect of Rust
`str::to_lowercase` on the ASCII command output the probes match on. -/
def lowerStr (s : String) : String :=
  ⟨s.data.map Char.toLower⟩

/-- `startsWithChars l1 l2` is true when `l1` is an initial segment of
`l2`. -/
def startsWithChars : List Char → List Char → Bool
  | [], _ => true
  | _ :: _, [] => false
  | a :: as, b :: bs => a = b && startsWithChars as bs

/-- `infixChars l1 l2` is true when `l1` occurs contiguously in `l2`. -/
def infixChars (needle : List Char) : List Char → Bool
  | [] => needle.isEmpty
  | c :: rest => startsWithChars needle (c :: rest) || infixChars needle rest

/-- `containsSub needle hay` models Rust `str::contains` for a literal
needle: the needle occurs as a contiguous substring of the haystack. -/
def containsSub (needle hay : String) : Bool :=
  infixChars needle.data hay.data

/-- Whitespace trimming on both ends, modelling Rust `str::trim`. -/
def rustTrim (s : String) : String :=
  ⟨((s.data.dropWhile Char.isWhitespace).reverse.dropWhile Char.isWhitespace).reverse⟩

/-- Splits a character list at every occurrence of `sep`; the pieces do
not contain `sep`. -/
def splitChar (sep : Char) : List Char → List (List Char)
  | [] => [[]]
  | c :: rest =>
    if c = sep then
      [] :: splitChar sep rest
    else
      match splitChar sep rest with
      | [] => [[c]]
      | piece :: pieces => (c :: piece) :: pieces

/-- Rust `str::lines`: split on a newline, drop one trailing empty line
produced by a terminal newline, and strip one trailing carriage return
from each line. -/
def rustLines (s : String) : List String :=
  let parts := splitChar (Char.ofNat 10) s.data
  let parts :=
    match parts.getLast? with
    | some [] => parts.dropLast
    | _ => parts
  parts.map fun l =>
    match l.getLast? with
    | some c => if c = Char.ofNat 13 then ⟨l.dropLast⟩ else ⟨l⟩
    | none => ⟨l⟩

/-- Numeric value of a list of decimal digit characters. -/
def natOfDigits (l : List Char) : Nat :=
  l.foldl (fun a c => a * 10 + (c.toNat - 48)) 0

/-- Rust `str::parse::<u64>`: an optional leading plus sign, then one
or more decimal digits, rejecting values beyond the 64-bit range. -/
def parseU64 (s : String) : Option Nat :=
  let cs := s.data
  let cs := match cs with
    | c :: rest => if c = Char.ofNat 43 then rest else cs
    | [] => cs
  if cs.isEmpty then none
  else if cs.all Char.isDigit then
    let n := natOfDigits cs
    if n < 2 ^ 64 then some n else none
  else none

/-- Rust `str::parse::<f64>`, restricted to the plain decimal literals
the diagnostic tools emit: an optional sign, then digits with an
optional single decimal point (the exponent, infinity and not-a-number
forms of the full parser never occur in this output and are modelled as
unparsable). -/
def parseF64 (s : String) : Option ℚ :=
  let cs := s.data
  let signNeg : Bool :=
    match cs with
    | c :: _ => c = Char.ofNat 45
    | [] => false
  let cs1 := match cs with
    | c :: rest => if c = Char.ofNat 45 ∨ c = Char.ofNat 43 then rest else cs
    | [] => cs
  let ip := cs1.takeWhile Char.isDigit
  let rest := cs1.dropWhile Char.isDigit
  let mag : Option ℚ :=
    match rest with
    | [] => if ip.isEmpty then none else some ((natOfDigits ip : ℚ))
    | c :: fr =>
      if c = Char.ofNat 46 ∧ fr.all Char.isDigit ∧ ¬(ip.isEmpty ∧ fr.isEmpty) then
        some ((natOfDigits ip : ℚ) + (natOfDigits fr : ℚ) / (10 : ℚ) ^ fr.length)
      else none
  mag.map fun m => if signNeg then -m else m

/-- The NVIDIA step of `detect_gpu` (hardware.rs lines 45-53): spawn
`nvidia-smi`, require a successful exit, UTF-8 output, and a parsed
numeric total; yields the parsed megabyte figure. -/
def nvidiaVram (env : ProbeEnv) : Option ℚ :=
  match env.nvidia_smi with
  | none => none
  | some out =>
    if out.success then
      match out.stdout with
      | some s => parseF64 (rustTrim s)
      | none => none
    else none

/-- The AMD step of `detect_gpu` (hardware.rs lines 56-62): spawn
`rocm-smi` and require only a successful exit. -/
def rocmOk (env : ProbeEnv) : Bool :=
  match env.rocm_smi with
  | some out => out.success
  | none => false

/-- The lspci text match of `detect_intel_gpu` (hardware.rs lines
111-125 and 131-142): a successful `lspci` whose UTF-8 output has a
line containing both "intel" and "arc" after lowercasing. -/
def intelLspciMatch (env : ProbeEnv) : Bool :=
  match env.lspci with
  | none => false
  | some out =>
    out.success &&
      match out.stdout with
      | none => false
      | some s =>
        (rustLines s).any fun l =>
          containsSub "intel" (lowerStr l) && containsSub "arc" (lowerStr l)

/-- The per-card body of the `detect_intel_gpu` loop (hardware.rs lines
97-125), after the vendor filter: read `mem_info_vram_total` and use a
parsed nonzero byte count, converted to gigabytes; otherwise fall back
to the lspci name heuristic reporting a zero-gigabyte shared pool. -/
def intelCardProbe (env : ProbeEnv) (card : DrmCard) : Option ℚ :=
  let vramStep : Option ℚ :=
    match card.mem_info_vram_total with
    | some s =>
      match parseU64 (rustTrim s) with
      | some b => if 0 < b then some ((b : ℚ) / (1024 * 1024 * 1024)) else none
      | none => none
    | none => none
  vramStep.orElse fun _ => if intelLspciMatch env then some 0 else none

/-- The card loop of `detect_intel_gpu` (hardware.rs lines 85-126): a
card whose vendor file reads successfully as something other than
Intel's identifier `0x8086` is skipped; a card whose vendor file cannot
be read is still probed, matching the source's fall-through. -/
def intelScan (env : ProbeEnv) : List DrmCard → Option ℚ
  | [] => none
  | card :: rest =>
    match card.vendor with
    | some v =>
      if rustTrim v = "0x8086" then
        (intelCardProbe env card).orElse fun _ => intelScan env rest
      else intelScan env rest
    | none => (intelCardProbe env card).orElse fun _ => intelScan env rest

/-- `SystemSpecs::detect_intel_gpu` (hardware.rs lines 81-145): scan
the drm cards when the directory is readable, then fall back to the
direct lspci heuristic. -/
def detect_intel_gpu (env : ProbeEnv) : Option ℚ :=
  let scanned : Option ℚ :=
    match env.drm_cards with
    | some cards => intelScan env cards
    | none => none
  scanned.orElse fun _ => if intelLspciMatch env then some 0 else none

/-- The chipset-line test of `detect_apple_gpu` (hardware.rs lines
164-167): some output line, lowercased, contains "apple m" or
"apple gpu". -/
def is_apple_gpu (text : String) : Bool :=
  (rustLines text).any fun l =>
    containsSub "apple m" (lowerStr l) || containsSub "apple gpu" (lowerStr l)

/-- `SystemSpecs::detect_apple_gpu` (hardware.rs lines 149-176): spawn
`system_profiler SPDisplaysDataType`; on a successful exit with UTF-8
output naming an Apple Silicon GPU, report the available system RAM as
the unified pool. -/
def detect_apple_gpu (env : ProbeEnv) (available_ram_gb : ℚ) : Option ℚ :=
  match env.system_profiler with
  | none => none
  | some out =>
    if out.success then
      match out.stdout with
      | some text => if is_apple_gpu text then some available_ram_gb else none
      | none => none
    else none

/-- `SystemSpecs::detect_gpu` (hardware.rs lines 43-75): the
fixed-priority probe cascade, returning `(has_gpu, gpu_vram_gb,
unified_memory)`.  The NVIDIA figure is megabytes and is divided by
1024. -/
def detect_gpu (env : ProbeEnv) (available_ram_gb : ℚ) : Bool × Option ℚ × Bool :=
  match nvidiaVram env with
  | some vram_mb => (true, some (vram_mb / 1024), false)
  | none =>
    if rocmOk env then (true, none, false)
    else
      match detect_intel_gpu env with
      | some vram => (true, some vram, false)
      | none =>
        match detect_apple_gpu env available_ram_gb with
        | some vram => (true, some vram, true)
        | none => (false, none, false)

/-- The `SystemSpecs` struct of hardware.rs (the design document's
SystemSnapshot; its `gpu_memory_gb` field is `gpu_vram_gb` here, the
source's name). -/
structure SystemSpecs where
  total_ram_gb : ℚ
  available_ram_gb : ℚ
  total_cpu_cores : Nat
  cpu_name : String
  has_gpu : Bool
  gpu_vram_gb : Option ℚ
  unified_memory : Bool
deriving DecidableEq, Repr

/-- `SystemSpecs::detect` (hardware.rs lines 15-41): convert the byte
counts to gigabytes, take the CPU inventory, and run the GPU cascade on
the just-measured available RAM. -/
def detect (sys : SysEnv) : SystemSpecs :=
  { total_ram_gb := (sys.total_memory : ℚ) / (1024 * 1024 * 1024)
    available_ram_gb := (sys.available_memory : ℚ) / (1024 * 1024 * 1024)
    total_cpu_cores := sys.cpus.length
    cpu_name := (sys.cpus.head?).getD "Unknown CPU"
    has_gpu := (detect_gpu sys.gpu ((sys.available_memory : ℚ) / (1024 * 1024 * 1024))).1
    gpu_vram_gb := (detect_gpu sys.gpu ((sys.available_memory : ℚ) / (1024 * 1024 * 1024))).2.1
    unified_memory := (detect_gpu sys.gpu ((sys.available_memory : ℚ) / (1024 * 1024 * 1024))).2.2 }

/-- The positive signal of the NVIDIA probe, as the triple it would
report: the parsed megabyte figure converted to gigabytes, no unified
memory. -/
def nvidiaSignal (env : ProbeEnv) : Option (Bool × Option ℚ × Bool) :=
  (nvidiaVram env).map fun vram_mb => (true, some (vram_mb / 1024), false)

/-- The positive signal of the AMD probe: a GPU with unknown memory. -/
def rocmSignal (env : ProbeEnv) : Option (Bool × Option ℚ × Bool) :=
  if rocmOk env then some (true, none, false) else none

/-- The positive signal of the Intel sysfs/PCI-listing probe. -/
def intelSignal (env : ProbeEnv) : Option (Bool × Option ℚ × Bool) :=
  (detect_intel_gpu env).map fun vram => (true, some vram, false)

/-- The positive signal of the Apple unified-memory probe. -/
def appleSignal (env : ProbeEnv) (available_ram_gb : ℚ) :
    Option (Bool × Option ℚ × Bool) :=
  (detect_apple_gpu env available_ram_gb).map fun vram => (true, some vram, true)

/-- First positive element of an ordered list of optional signals. -/
def firstSome {α : Type} : List (Option α) → Option α
  | [] => none
  | none :: rest => firstSome rest
  | some a :: _ => some a

/-- The probe cascade as the design document words it: the four probes
in fixed priority order, the first positive signal winning, and the
no-GPU default when every probe is negative. -/
def probeCascade (env : ProbeEnv) (available_ram_gb : ℚ) : Bool × Option ℚ × Bool :=
  (firstSome
    [nvidiaSignal env, rocmSignal env, intelSignal env,
      appleSignal env available_ram_gb]).getD (false, none, false)

/-- Modelled from the spec: the `RunMode` sum type of the fit engine
(its `fit.rs` source is outside this tree; the design document and the
presentation layer fix its three variants). -/
inductive RunMode where
  | Gpu
  | CpuOffload
  | CpuOnly
deriving DecidableEq, Repr

/-- Modelled from the spec: the `FitLevel` sum type of the fit
engine. -/
inductive FitLevel where
  | Perfect
  | Good
  | Marginal
  | TooTight
deriving DecidableEq, Repr

/-- Modelled from the spec: the `ModelSpec` catalog record (external
read-only input to the fit engine). -/
structure ModelSpec where
  name : String
  provider : String
  parameter_count : String
  quantization : String
  context_length : Nat
  min_vram_gb : Option ℚ
  min_ram_gb : ℚ
  recommended_ram_gb : ℚ
  use_case : String
deriving DecidableEq, Repr

/-- Modelled from the spec: the `FitAssessment` record produced per
model per snapshot. -/
structure FitAssessment where
  run_mode : RunMode
  fit_level : FitLevel
  memory_required_gb : ℚ
  memory_available_gb : ℚ
  utilization_pct : ℚ
  notes : List String
deriving DecidableEq, Repr

/-- Modelled from the spec: the fit-level thresholds of the fit
engine's step 4 — `Perfect` up to 50 percent utilization, `Good` up to
75, `Marginal` up to 95, `TooTight` beyond. -/
def fitLevelOf (util : ℚ) : FitLevel :=
  if util ≤ 50 then FitLevel.Perfect
  else if util ≤ 75 then FitLevel.Good
  else if util ≤ 95 then FitLevel.Marginal
  else FitLevel.TooTight

/-- Modelled from the spec: `utilization_pct = memory_required_gb /
memory_available_gb * 100`, clamped to `[0, 999]`. -/
def utilizationPct (required available : ℚ) : ℚ :=
  min 999 (max 0 (required / available * 100))

/-- Modelled from the spec: the run-mode selection of the fit engine's
step 1 — no GPU requirement or no GPU means CPU only; a GPU whose pool
is unknown or zero, or too small for the requirement, means CPU
offload; otherwise the model runs on the GPU. -/
def selectRunMode (snap : SystemSpecs) (model : ModelSpec) : RunMode :=
  match model.min_vram_gb with
  | none => RunMode.CpuOnly
  | some min_vram =>
    if snap.has_gpu then
      match snap.gpu_vram_gb with
      | none => RunMode.CpuOffload
      | some pool =>
        if pool = 0 then RunMode.CpuOffload
        else if min_vram ≤ pool then RunMode.Gpu
        else RunMode.CpuOffload
    else RunMode.CpuOnly

/-- Modelled from the spec: steps 3 and 4 of the fit engine (its
`fit.rs` source is outside this tree) — a nonpositive available pool
saturates utilization and forces `TooTight` instead of dividing;
otherwise the clamped utilization is graded by the thresholds.  The
advisory note strings are display-only and left unspecified by the
design document, so they are modelled as empty. -/
def mkAssessment (mode : RunMode) (required available : ℚ) : FitAssessment :=
  if available ≤ 0 then
    { run_mode := mode
      fit_level := FitLevel.TooTight
      memory_required_gb := required
      memory_available_gb := available
      utilization_pct := 999
      notes := [] }
  else
    { run_mode := mode
      fit_level := fitLevelOf (utilizationPct required available)
      memory_required_gb := required
      memory_available_gb := available
      utilization_pct := utilizationPct required available
      notes := [] }

/-- Modelled from the spec: `assess(snapshot, model)`, steps 1 to 4 of
the fit engine's algorithm — run-mode selection, mode-directed memory
accounting, then the guarded utilization and threshold grading of
`mkAssessment`. -/
def assess (snap : SystemSpecs) (model : ModelSpec) : FitAssessment :=
  let mode := selectRunMode snap model
  let required : ℚ :=
    match mode with
    | RunMode.Gpu => (model.min_vram_gb).getD 0
    | RunMode.CpuOffload => model.min_ram_gb
    | RunMode.CpuOnly => model.min_ram_gb
  let available : ℚ :=
    match mode with
    | RunMode.Gpu => (snap.gpu_vram_gb).getD 0
    | RunMode.CpuOffload => snap.available_ram_gb
    | RunMode.CpuOnly => snap.available_ram_gb
  mkAssessment mode required available

/-- Rank of a fit level in the order `Perfect < Good < Marginal <
TooTight`; a larger rank is a worse fit. -/
def fitRank : FitLevel → Nat
  | FitLevel.Perfect => 0
  | FitLevel.Good => 1
  | FitLevel.Marginal => 2
  | FitLevel.TooTight => 3

/-- Is byte index `i` a character boundary of the UTF-8 byte string
`s`?  Models Rust `str::is_char_boundary`: index zero and the length
are boundaries, and an interior index is a boundary when its byte is
not a UTF-8 continuation byte. -/
def isCharBoundary (s : List Nat) (i : Nat) : Bool :=
  if i = 0 then true
  else
    match s.get? i with
    | some b => b < 128 || 192 ≤ b
    | none => i = s.length

/-- The UTF-8 bytes of the horizontal-ellipsis character appended by
`truncate_str`. -/
def ellipsisBytes : List Nat := [226, 128, 166]

/-- `truncate_str` (tui_ui.rs lines 503-509) over a Rust string as its
UTF-8 bytes: a string within the limit is returned unchanged; a longer
one is byte-sliced to `max_len - 1` and an ellipsis is appended.  The
byte slice panics when the cut is not a character boundary, and the
`max_len - 1` subtraction fails for `max_len = 0`; both panics are
modelled as `none`. -/
def truncate_str (s : List Nat) (max_len : Nat) : Option (List Nat) :=
  if s.length ≤ max_len then some s
  else if max_len = 0 then none
  else if isCharBoundary s (max_len - 1) then
    some (s.take (max_len - 1) ++ ellipsisBytes)
  else none

theorem mkAssessment_run_mode (mode : RunMode) (required available : ℚ) :
    (mkAssessment mode required available).run_mode = mode := by
  unfold mkAssessment
  split <;> rfl

theorem mkAssessment_available (mode : RunMode) (required available : ℚ) :
    (mkAssessment mode required available).memory_available_gb = available := by
  unfold mkAssessment
  split <;> rfl

theorem mkAssessment_required (mode : RunMode) (required available : ℚ) :
    (mkAssessment mode required available).memory_required_gb = required := by
  unfold mkAssessment
  split <;> rfl

theorem fitLevelOf_clamp (x : ℚ) :
    fitLevelOf (min 999 (max 0 x)) = fitLevelOf x := by
  unfold fitLevelOf
  rcases le_total x 999 with h999 | h999
  · rcases le_total 0 x with h0 | h0
    · rw [max_eq_right h0, min_eq_right h999]
    · have hm : max (0 : ℚ) x = 0 := max_eq_left h0
      have hmin : min (999 : ℚ) 0 = 0 := by norm_num
      rw [hm, hmin]
      split_ifs <;> first | rfl | linarith
  · have h0 : (0 : ℚ) ≤ x := by linarith
    rw [max_eq_right h0, min_eq_left h999]
    split_ifs <;> first | rfl | linarith

theorem mkAssessment_fit_of_pos (mode : RunMode) (required available : ℚ)
    (h : 0 < (mkAssessment mode required available).memory_available_gb) :
    (mkAssessment mode required available).fit_level =
      fitLevelOf ((mkAssessment mode required available).memory_required_gb /
        (mkAssessment mode required available).memory_available_gb * 100) := by
  rw [mkAssessment_available] at h
  rw [mkAssessment_available, mkAssessment_required]
  unfold mkAssessment
  rw [if_neg (by linarith : ¬ available ≤ 0)]
  show fitLevelOf (utilizationPct required available) = _
  unfold utilizationPct
  exact fitLevelOf_clamp _

theorem mkAssessment_tootight (mode : RunMode) (required available : ℚ)
    (h : (mkAssessment mode required available).memory_available_gb ≤ 0) :
    (mkAssessment mode required available).fit_level = FitLevel.TooTight := by
  rw [mkAssessment_available] at h
  unfold mkAssessment
  rw [if_pos h]

theorem fitRank_mono {u1 u2 : ℚ} (h : u1 ≤ u2) :
    fitRank (fitLevelOf u1) ≤ fitRank (fitLevelOf u2) := by
  unfold fitLevelOf
  split_ifs <;> simp [fitRank] <;> linarith

/-- C1: for every snapshot and model, `assess` selects `run_mode` by
the exact rule: no GPU requirement means `CpuOnly`; no GPU means
`CpuOnly`; an unset or zero GPU pool means `CpuOffload`; a pool at
least the requirement means `Gpu`; otherwise `CpuOffload`. -/
theorem assess_run_mode_rule (snap : SystemSpecs) (model : ModelSpec) :
    (assess snap model).run_mode =
      match model.min_vram_gb with
      | none => RunMode.CpuOnly
      | some min_vram =>
        if snap.has_gpu = false then RunMode.CpuOnly
        else
          match snap.gpu_vram_gb with
          | none => RunMode.CpuOffload
          | some pool =>
            if pool = 0 then RunMode.CpuOffload
            else if min_vram ≤ pool then RunMode.Gpu
            else RunMode.CpuOffload := by
  show (mkAssessment _ _ _).run_mode = _
  rw [mkAssessment_run_mode]
  unfold selectRunMode
  obtain ⟨tr, ar, cc, cn, hg, gv, um⟩ := snap
  cases model.min_vram_gb <;> cases hg <;> cases gv <;> simp

/-- C2: whenever the compared pool is positive, the fit level is the
threshold grading of `memory_required_gb / memory_available_gb * 100`
— `Perfect` up to 50, `Good` up to 75, `Marginal` up to 95, `TooTight`
beyond — and a utilization of exactly 80 grades as `Marginal`. -/
theorem assess_fit_level_thresholds :
    (∀ (snap : SystemSpecs) (model : ModelSpec),
      0 < (assess snap model).memory_available_gb →
        (assess snap model).fit_level =
          fitLevelOf ((assess snap model).memory_required_gb /
            (assess snap model).memory_available_gb * 100)) ∧
    fitLevelOf 80 = FitLevel.Marginal := by
  constructor
  · intro snap model h
    exact mkAssessment_fit_of_pos _ _ _ h
  · decide

/-- C2 witness: the no-GPU scenario — 16 GB required against 20 GB of
RAM is 80 percent utilization and grades `Marginal`. -/
theorem assess_fit_level_thresholds_witness :
    (0 : ℚ) <
      (assess ⟨32, 20, 8, "cpu", false, none, false⟩
        ⟨"m", "p", "7B", "Q4", 4096, some 8, 16, 24, "chat"⟩).memory_available_gb ∧
    (assess ⟨32, 20, 8, "cpu", false, none, false⟩
        ⟨"m", "p", "7B", "Q4", 4096, some 8, 16, 24, "chat"⟩).fit_level =
      fitLevelOf
        ((assess ⟨32, 20, 8, "cpu", false, none, false⟩
            ⟨"m", "p", "7B", "Q4", 4096, some 8, 16, 24, "chat"⟩).memory_required_gb /
          (assess ⟨32, 20, 8, "cpu", false, none, false⟩
            ⟨"m", "p", "7B", "Q4", 4096, some 8, 16, 24, "chat"⟩).memory_available_gb * 100) :=
  ⟨by decide, assess_fit_level_thresholds.1 _ _ (by decide)⟩

/-- C6: a nonpositive compared pool yields `TooTight`; `assess` is a
total function, so no division error or failure can occur there. -/
theorem assess_nonpositive_available_tootight (snap : SystemSpecs) (model : ModelSpec)
    (h : (assess snap model).memory_available_gb ≤ 0) :
    (assess snap model).fit_level = FitLevel.TooTight :=
  mkAssessment_tootight _ _ _ h

/-- C6 witness: zero available RAM in CPU-only accounting is graded
`TooTight`. -/
theorem assess_nonpositive_available_tootight_witness :
    (assess ⟨32, 0, 8, "cpu", false, none, false⟩
        ⟨"m", "p", "7B", "Q4", 4096, none, 16, 24, "chat"⟩).memory_available_gb ≤ 0 ∧
    (assess ⟨32, 0, 8, "cpu", false, none, false⟩
        ⟨"m", "p", "7B", "Q4", 4096, none, 16, 24, "chat"⟩).fit_level = FitLevel.TooTight :=
  ⟨by decide, assess_nonpositive_available_tootight _ _ (by decide)⟩

/-- C9: with the available pool fixed at a positive value, a larger
requirement never lowers the clamped utilization and never improves
the fit level in the order `Perfect < Good < Marginal < TooTight`. -/
theorem utilization_fit_monotone (available r1 r2 : ℚ)
    (ha : 0 < available) (h : r1 ≤ r2) :
    utilizationPct r1 available ≤ utilizationPct r2 available ∧
    fitRank (fitLevelOf (utilizationPct r1 available)) ≤
      fitRank (fitLevelOf (utilizationPct r2 available)) := by
  have hdiv : r1 / available ≤ r2 / available :=
    (div_le_div_iff_of_pos_right ha).mpr h
  have hu : r1 / available * 100 ≤ r2 / available * 100 :=
    mul_le_mul_of_nonneg_right hdiv (by norm_num)
  have hmono : utilizationPct r1 available ≤ utilizationPct r2 available := by
    unfold utilizationPct
    exact min_le_min (le_refl 999) (max_le_max (le_refl 0) hu)
  exact ⟨hmono, fitRank_mono hmono⟩

/-- C9 witness: at 20 GB available, raising the requirement from 10 GB
to 16 GB does not lower utilization or improve the fit level. -/
theorem utilization_fit_monotone_witness :
    utilizationPct 10 20 ≤ utilizationPct 16 20 ∧
    fitRank (fitLevelOf (utilizationPct 10 20)) ≤
      fitRank (fitLevelOf (utilizationPct 16 20)) :=
  utilization_fit_monotone 20 10 16 (by norm_num) (by norm_num)

/-- C3: `detect_gpu` is the fixed-priority cascade NVIDIA, AMD, Intel,
Apple — the first positive signal wins and later probes are skipped,
all probes negative gives the no-GPU default, and every failure kind of
a probe (tool not spawnable, unsuccessful exit, non-UTF8 output,
unparsable numeric output) makes that probe's signal negative. -/
theorem detect_gpu_probe_cascade :
    (∀ (env : ProbeEnv) (avail : ℚ),
      detect_gpu env avail = probeCascade env avail) ∧
    (∀ (env : ProbeEnv) (avail : ℚ),
      nvidiaSignal env = none → rocmSignal env = none →
      intelSignal env = none → appleSignal env avail = none →
      detect_gpu env avail = (false, none, false)) ∧
    (∀ env : ProbeEnv,
      env.nvidia_smi = none ∨
        (∃ out, env.nvidia_smi = some out ∧
          (out.success = false ∨ out.stdout = none ∨
            ∃ s, out.stdout = some s ∧ parseF64 (rustTrim s) = none)) →
      nvidiaSignal env = none) ∧
    (∀ env : ProbeEnv,
      env.rocm_smi = none ∨
        (∃ out, env.rocm_smi = some out ∧ out.success = false) →
      rocmSignal env = none) ∧
    (∀ (env : ProbeEnv) (avail : ℚ),
      env.system_profiler = none ∨
        (∃ out, env.system_profiler = some out ∧
          (out.success = false ∨ out.stdout = none)) →
      appleSignal env avail = none) := by
  refine ⟨?_, ?_, ?_, ?_, ?_⟩
  · intro env avail
    rcases h1 : nvidiaVram env with _ | v <;>
      rcases h2 : rocmOk env with _ | _ <;>
        rcases h3 : detect_intel_gpu env with _ | w <;>
          rcases h4 : detect_apple_gpu env avail with _ | u <;>
            simp [detect_gpu, probeCascade, nvidiaSignal, rocmSignal,
              intelSignal, appleSignal, firstSome, h1, h2, h3, h4]
  · intro env avail h1 h2 h3 h4
    have n1 : nvidiaVram env = none := by
      rcases hv : nvidiaVram env with _ | v
      · rfl
      · simp [nvidiaSignal, hv] at h1
    have n2 : rocmOk env = false := by
      rcases hv : rocmOk env with _ | _
      · rfl
      · simp [rocmSignal, hv] at h2
    have n3 : detect_intel_gpu env = none := by
      rcases hv : detect_intel_gpu env with _ | w
      · rfl
      · simp [intelSignal, hv] at h3
    have n4 : detect_apple_gpu env avail = none := by
      rcases hv : detect_apple_gpu env avail with _ | u
      · rfl
      · simp [appleSignal, hv] at h4
    simp [detect_gpu, n1, n2, n3, n4]
  · intro env h
    rcases h with h | ⟨out, hout, h⟩
    · simp [nvidiaSignal, nvidiaVram, h]
    · rcases h with h | h | ⟨s, hs, h⟩ <;>
        simp [nvidiaSignal, nvidiaVram, hout, h, *]
  · intro env h
    rcases h with h | ⟨out, hout, h⟩ <;>
      simp [rocmSignal, rocmOk, *]
  · intro env avail h
    rcases h with h | ⟨out, hout, h⟩
    · simp [appleSignal, detect_apple_gpu, h]
    · rcases h with h | h <;> simp [appleSignal, detect_apple_gpu, hout, h]

/-- C3 witness: with every probe negative the cascade reports no GPU,
no memory figure, no unified memory. -/
theorem detect_gpu_probe_cascade_witness :
    detect_gpu ⟨none, none, none, none, none⟩ 5 = (false, none, false) :=
  detect_gpu_probe_cascade.2.1 ⟨none, none, none, none, none⟩ 5
    (by decide) (by decide) (by decide) (by decide)

/-- C4: when the Apple probe succeeds (a successful `system_profiler`
run whose UTF-8 output names an Apple Silicon GPU) and every earlier
probe is negative, the detected snapshot has a GPU with unified memory
whose pool equals the available RAM measured at detection time. -/
theorem apple_probe_unified_snapshot (sys : SysEnv) (out : CmdOut) (text : String)
    (h1 : nvidiaVram sys.gpu = none) (h2 : rocmOk sys.gpu = false)
    (h3 : detect_intel_gpu sys.gpu = none)
    (h4 : sys.gpu.system_profiler = some out) (h5 : out.success = true)
    (h6 : out.stdout = some text) (h7 : is_apple_gpu text = true) :
    (detect sys).has_gpu = true ∧ (detect sys).unified_memory = true ∧
    (detect sys).gpu_vram_gb = some ((detect sys).available_ram_gb) := by
  have key : ∀ a : ℚ, detect_gpu sys.gpu a = (true, some a, true) := by
    intro a
    have happle : detect_apple_gpu sys.gpu a = some a := by
      simp [detect_apple_gpu, h4, h5, h6, h7]
    simp [detect_gpu, h1, h2, h3, happle]
  simp [detect, key]

/-- C4 witness: an Apple M3 line in a successful probe, the other
probes absent, and 20 binary gigabytes of available memory. -/
theorem apple_probe_unified_snapshot_witness :
    is_apple_gpu "Chipset Model: Apple M3" = true ∧
    (detect ⟨34359738368, 21474836480, ["cpu"],
        ⟨none, none, none, none, some ⟨true, some "Chipset Model: Apple M3"⟩⟩⟩).has_gpu = true ∧
    (detect ⟨34359738368, 21474836480, ["cpu"],
        ⟨none, none, none, none, some ⟨true, some "Chipset Model: Apple M3"⟩⟩⟩).unified_memory = true ∧
    (detect ⟨34359738368, 21474836480, ["cpu"],
        ⟨none, none, none, none, some ⟨true, some "Chipset Model: Apple M3"⟩⟩⟩).gpu_vram_gb =
      some ((detect ⟨34359738368, 21474836480, ["cpu"],
        ⟨none, none, none, none, some ⟨true, some "Chipset Model: Apple M3"⟩⟩⟩).available_ram_gb) :=
  ⟨by decide,
    apple_probe_unified_snapshot _ ⟨true, some "Chipset Model: Apple M3"⟩
      "Chipset Model: Apple M3" (by decide) (by decide) (by decide) rfl rfl rfl (by decide)⟩

/-- C5 counterexample: `nvidia-smi` reporting 2048 parses to the
numeric value 2048, yet the stored memory figure is not 2048 — the
code divides the parsed megabyte figure by 1024. -/
theorem nvidia_parsed_value_counterexample :
    parseF64 (rustTrim "2048") = some 2048 ∧
    (detect ⟨0, 0, [], ⟨some ⟨true, some "2048"⟩, none, none, none, none⟩⟩).gpu_vram_gb ≠
      some 2048 := by
  constructor
  · decide
  · have hn : nvidiaVram ⟨some ⟨true, some "2048"⟩, none, none, none, none⟩ = some 2048 := by
      decide
    simp [detect, detect_gpu, hn]
    norm_num

/-- C5 amended: when the NVIDIA probe succeeds with parsed numeric
value `v` (megabytes), the snapshot has a GPU, memory figure
`v / 1024` gigabytes, and no unified memory. -/
theorem nvidia_probe_mb_to_gb (sys : SysEnv) (out : CmdOut) (s : String) (v : ℚ)
    (h1 : sys.gpu.nvidia_smi = some out) (h2 : out.success = true)
    (h3 : out.stdout = some s) (h4 : parseF64 (rustTrim s) = some v) :
    (detect sys).has_gpu = true ∧ (detect sys).gpu_vram_gb = some (v / 1024) ∧
    (detect sys).unified_memory = false := by
  have hn : nvidiaVram sys.gpu = some v := by
    simp [nvidiaVram, h1, h2, h3, h4]
  have key : ∀ a : ℚ, detect_gpu sys.gpu a = (true, some (v / 1024), false) := by
    intro a
    simp [detect_gpu, hn]
  simp [detect, key]

/-- C5 amended witness: a successful probe printing 4096 megabytes
yields a 4-gigabyte pool recorded as `4096 / 1024`. -/
theorem nvidia_probe_mb_to_gb_witness :
    parseF64 (rustTrim "4096") = some 4096 ∧
    (detect ⟨0, 0, [], ⟨some ⟨true, some "4096"⟩, none, none, none, none⟩⟩).has_gpu = true ∧
    (detect ⟨0, 0, [], ⟨some ⟨true, some "4096"⟩, none, none, none, none⟩⟩).gpu_vram_gb =
      some ((4096 : ℚ) / 1024) ∧
    (detect ⟨0, 0, [], ⟨some ⟨true, some "4096"⟩, none, none, none, none⟩⟩).unified_memory = false :=
  ⟨by decide,
    nvidia_probe_mb_to_gb _ ⟨true, some "4096"⟩ "4096" 4096 rfl rfl rfl (by decide)⟩

theorem detect_gpu_unified_implies (env : ProbeEnv) (a : ℚ)
    (h : (detect_gpu env a).2.2 = true) : (detect_gpu env a).1 = true := by
  revert h
  unfold detect_gpu
  rcases nvidiaVram env with _ | v
  · by_cases hr : rocmOk env
    · simp [hr]
    · simp only [if_neg hr]
      rcases detect_intel_gpu env with _ | w
      · rcases detect_apple_gpu env a with _ | u <;> simp
      · simp
  · simp

/-- C7: every detected snapshot satisfies the invariant that unified
memory implies the presence of a GPU. -/
theorem detect_unified_implies_gpu (sys : SysEnv)
    (h : (detect sys).unified_memory = true) : (detect sys).has_gpu = true :=
  detect_gpu_unified_implies _ _ h

/-- C7 witness: a snapshot whose Apple probe fired has unified memory
and a GPU. -/
theorem detect_unified_implies_gpu_witness :
    (detect ⟨8589934592, 4294967296, [],
        ⟨none, none, none, none, some ⟨true, some "Apple GPU"⟩⟩⟩).unified_memory = true ∧
    (detect ⟨8589934592, 4294967296, [],
        ⟨none, none, none, none, some ⟨true, some "Apple GPU"⟩⟩⟩).has_gpu = true :=
  ⟨by decide, detect_unified_implies_gpu _ (by decide)⟩

/-- C8: when the operating system reports available bytes at most
total bytes, the detected snapshot has `available_ram_gb` at most
`total_ram_gb`, both fields being the byte counts divided by the same
positive constant. -/
theorem detect_available_le_total (sys : SysEnv)
    (h : sys.available_memory ≤ sys.total_memory) :
    (detect sys).available_ram_gb ≤ (detect sys).total_ram_gb := by
  show (sys.available_memory : ℚ) / (1024 * 1024 * 1024) ≤
    (sys.total_memory : ℚ) / (1024 * 1024 * 1024)
  have hc : (sys.available_memory : ℚ) ≤ (sys.total_memory : ℚ) := by
    exact_mod_cast h
  exact (div_le_div_iff_of_pos_right (by norm_num)).mpr hc

/-- C8 witness: one binary gigabyte available out of two total. -/
theorem detect_available_le_total_witness :
    1073741824 ≤ 2147483648 ∧
    (detect ⟨2147483648, 1073741824, [],
        ⟨none, none, none, none, none⟩⟩).available_ram_gb ≤
      (detect ⟨2147483648, 1073741824, [],
        ⟨none, none, none, none, none⟩⟩).total_ram_gb :=
  ⟨by decide, detect_available_le_total _ (by decide)⟩

/-- C10 counterexample: a four-byte string of two two-byte characters
truncated to 2 panics — byte index 1 is inside a character — instead of
returning the first byte and an ellipsis. -/
theorem truncate_str_multibyte_panic :
    truncate_str [195, 169, 195, 169] 2 = none ∧
    truncate_str [195, 169, 195, 169] 2 ≠ some ([195] ++ ellipsisBytes) := by
  decide

/-- C10 amended: for a limit of at least 1, `truncate_str` returns a
short enough string unchanged; a longer string is cut to its first
`n - 1` bytes plus an ellipsis when that byte index is a character
boundary, and panics (modelled `none`) when it is not; on purely ASCII
strings it never panics. -/
theorem truncate_str_behavior (s : List Nat) (n : Nat) (h : 1 ≤ n) :
    (s.length ≤ n → truncate_str s n = some s) ∧
    (n < s.length → isCharBoundary s (n - 1) = true →
      truncate_str s n = some (s.take (n - 1) ++ ellipsisBytes)) ∧
    (n < s.length → isCharBoundary s (n - 1) = false →
      truncate_str s n = none) ∧
    ((∀ b ∈ s, b < 128) → (truncate_str s n).isSome = true) := by
  refine ⟨?_, ?_, ?_, ?_⟩
  · intro hle
    simp [truncate_str, hle]
  · intro hlt hb
    unfold truncate_str
    rw [if_neg (by omega), if_neg (by omega), if_pos hb]
  · intro hlt hb
    unfold truncate_str
    rw [if_neg (by omega), if_neg (by omega), if_neg (by simp [hb])]
  · intro hascii
    by_cases hle : s.length ≤ n
    · simp [truncate_str, hle]
    · have hb : isCharBoundary s (n - 1) = true := by
        unfold isCharBoundary
        by_cases h0 : n - 1 = 0
        · rw [if_pos h0]
        · rw [if_neg h0]
          rcases hg : s.get? (n - 1) with _ | b
          · exfalso
            have := List.get?_eq_none.mp hg
            omega
          · have hmem : b ∈ s := List.get?_mem hg
            have hb128 := hascii b hmem
            simp
            omega
      unfold truncate_str
      rw [if_neg hle, if_neg (by omega), if_pos hb]
      rfl

/-- C10 amended witness: an ASCII string of five bytes truncated to 3
keeps its first two bytes and gains an ellipsis. -/
theorem truncate_str_behavior_witness :
    1 ≤ 3 ∧ (3 : Nat) < 5 ∧
    truncate_str [104, 101, 108, 108, 111] 3 =
      some ([104, 101] ++ ellipsisBytes) :=
  ⟨by decide, by decide,
    (truncate_str_behavior [104, 101, 108, 108, 111] 3 (by decide)).2.1
      (by decide) (by decide)⟩
